import Mathlib

/-!
Shallow embedding of the `tusk` backend's user controller
(`controllers/user_controller.go`) and the parts of its environment the
handlers observe.  The database is a list of user rows; each GORM call a
handler issues can also fail with a driver error, which we model by an
`Option String` fault parameter per call (`none` = the call reaches the
row list, `some msg` = the call returns the error `msg`).  bcrypt is kept
abstract: `verify hash pw` stands for a successful
`bcrypt.CompareHashAndPassword`, and `hash pw` for
`bcrypt.GenerateFromPassword` (`none` = hashing failed).  Gin's
`ShouldBindJSON` is modelled as a JSON-parse result (`Except String r`)
followed by the validation the binding tags declare.
-/

/-- A Go `time.Time` at second granularity, which is all the controller
observes of it (it only ever formats with layout `2006-01-02 15:04:05`). -/
structure DateTimeGo where
  year : Nat
  month : Nat
  day : Nat
  hour : Nat
  minute : Nat
  second : Nat
  deriving Repr, DecidableEq

/-- Zero-pad a numeral to two digits, as the `01`/`02`/`15`/`04`/`05`
components of Go's reference layout do. -/
def pad2 (n : Nat) : String :=
  if n < 10 then "0" ++ toString n else toString n

/-- Zero-pad a numeral to four digits, as the `2006` year component of
Go's reference layout does. -/
def pad4 (n : Nat) : String :=
  if n < 10 then "000" ++ toString n
  else if n < 100 then "00" ++ toString n
  else if n < 1000 then "0" ++ toString n
  else toString n

/-- Go's `t.Format "2006-01-02 15:04:05"`, used for the `createdAt` and
`updatedAt` fields of every response the controller builds. -/
def formatTimestamp (t : DateTimeGo) : String :=
  pad4 t.year ++ "-" ++ pad2 t.month ++ "-" ++ pad2 t.day ++ " " ++
    pad2 t.hour ++ ":" ++ pad2 t.minute ++ ":" ++ pad2 t.second

/-- Modelled from the spec: the `models.User` entity is not among the
provided sources (only the controller and config files are), so its shape
is taken from spec §3 ("numeric id, role, name, email, hashed password,
created/updated timestamps") and from the fields the controller reads and
writes. -/
structure User where
  Id : Int
  Role : String
  Name : String
  Email : String
  Password : String
  CreatedAt : DateTimeGo
  UpdatedAt : DateTimeGo
  deriving Repr, DecidableEq

/-- `LoginRequest` of `user_controller.go`: binding tags
`required,email` on the email and `required` on the password. -/
structure LoginRequest where
  Email : String
  Password : String
  deriving Repr, DecidableEq

/-- `CreateUserRequest` of `user_controller.go`: binding tags `required`
on the name, `required,email` on the email, `required,min=6` on the
password. -/
structure CreateUserRequest where
  Name : String
  Email : String
  Password : String
  deriving Repr, DecidableEq

/-- `UserResponse` of `user_controller.go`: the sanitized projection the
handlers return.  It has no password field. -/
structure UserResponse where
  Id : Int
  Role : String
  Name : String
  Email : String
  CreatedAt : String
  UpdatedAt : String
  deriving Repr, DecidableEq

/-- The body of each JSON reply the controller can produce, one
constructor per `c.JSON` shape in `user_controller.go`.  `err msg`
is the `gin.H\x7b"error": msg\x7d` body. -/
inductive RespBody where
  | err (msg : String)
  | loginOk (user : UserResponse)
  | createOk (user : UserResponse)
  | deleteOk (id : Int) (name : String) (email : String)
  | employeesOk (count : Nat) (employees : List UserResponse)
  deriving Repr, DecidableEq

/-- An HTTP reply: status code plus JSON body. -/
structure Response where
  status : Nat
  body : RespBody
  deriving Repr, DecidableEq

/-- Outcome of a GORM `First` call: a row, `gorm.ErrRecordNotFound`, or
some other driver error. -/
inductive QueryResult (α : Type) where
  | found (a : α)
  | notFound
  | failure (msg : String)
  deriving Repr, DecidableEq

/-- `u.DB.Where("email = ?", e).First(&user)`: with a healthy connection
the first row whose email matches, or record-not-found; with a fault the
driver error. -/
def firstWhereEmail (db : List User) (fault : Option String) (e : String) :
    QueryResult User :=
  match fault with
  | some msg => .failure msg
  | none =>
    match db.find? (fun u => u.Email == e) with
    | some u => .found u
    | none => .notFound

/-- `u.DB.First(&user, id)`: primary-key lookup, same error model. -/
def firstById (db : List User) (fault : Option String) (id : Int) :
    QueryResult User :=
  match fault with
  | some msg => .failure msg
  | none =>
    match db.find? (fun u => u.Id == id) with
    | some u => .found u
    | none => .notFound

/-- The projection lines 67-74 / 120-127 / 184-191 of the controller
apply to a row before replying (no password field). -/
def toUserResponse (u : User) : UserResponse :=
  { Id := u.Id
    Role := u.Role
    Name := u.Name
    Email := u.Email
    CreatedAt := formatTimestamp u.CreatedAt
    UpdatedAt := formatTimestamp u.UpdatedAt }

/-- Validation of `LoginRequest`'s binding tags (`required,email` /
`required`), `some msg` being a failure.  `validEmail` abstracts gin's
`email` format validator. -/
def bindLoginErr (validEmail : String → Bool) (r : LoginRequest) :
    Option String :=
  if r.Email = "" then some "Email is required"
  else if !validEmail r.Email then some "Email must be a valid email"
  else if r.Password = "" then some "Password is required"
  else none

/-- Validation of `CreateUserRequest`'s binding tags (`required` /
`required,email` / `required,min=6`).  The validator's `min` on a string
counts characters, as `String.length` does. -/
def bindCreateErr (validEmail : String → Bool) (r : CreateUserRequest) :
    Option String :=
  if r.Name = "" then some "Name is required"
  else if r.Email = "" then some "Email is required"
  else if !validEmail r.Email then some "Email must be a valid email"
  else if r.Password = "" then some "Password is required"
  else if r.Password.length < 6 then some "Password must be at least 6 characters"
  else none

/-- `c.ShouldBindJSON`: a JSON-parse step (`raw`) followed by tag
validation. -/
def shouldBindLogin (validEmail : String → Bool)
    (raw : Except String LoginRequest) : Except String LoginRequest :=
  match raw with
  | .error m => .error m
  | .ok r =>
    match bindLoginErr validEmail r with
    | some m => .error m
    | none => .ok r

/-- `c.ShouldBindJSON` for `CreateUserRequest`. -/
def shouldBindCreate (validEmail : String → Bool)
    (raw : Except String CreateUserRequest) : Except String CreateUserRequest :=
  match raw with
  | .error m => .error m
  | .ok r =>
    match bindCreateErr validEmail r with
    | some m => .error m
    | none => .ok r

/-- The `Login` handler (lines 39-80).  Any error from the email lookup —
record-not-found or driver failure — and any bcrypt mismatch take the
same 401 branch. -/
def Login (verify : String → String → Bool) (validEmail : String → Bool)
    (db : List User) (qFault : Option String)
    (raw : Except String LoginRequest) : Response :=
  match shouldBindLogin validEmail raw with
  | .error m => { status := 400, body := .err m }
  | .ok req =>
    match firstWhereEmail db qFault req.Email with
    | .found user =>
      if verify user.Password req.Password then
        { status := 200, body := .loginOk (toUserResponse user) }
      else
        { status := 401, body := .err "Email or Password is Wrong" }
    | _ => { status := 401, body := .err "Email or Password is Wrong" }

/-- The `CreateAccount` handler (lines 82-133).  The duplicate pre-check
takes the 400 branch exactly when the lookup's error is nil, i.e. a row
was found; both record-not-found and a driver failure fall through to
hashing and the insert.  `newId` and `now` are the id and timestamps the
database assigns on `Create`; `insFault` is a failure of that insert.
Returns the reply together with the resulting row list. -/
def CreateAccount (hash : String → Option String)
    (validEmail : String → Bool) (db : List User)
    (preFault insFault : Option String) (newId : Int) (now : DateTimeGo)
    (raw : Except String CreateUserRequest) : Response × List User :=
  match shouldBindCreate validEmail raw with
  | .error m => ({ status := 400, body := .err m }, db)
  | .ok req =>
    match firstWhereEmail db preFault req.Email with
    | .found _ => ({ status := 400, body := .err "Email already exists" }, db)
    | _ =>
      match hash req.Password with
      | none => ({ status := 500, body := .err "Failed to hash password" }, db)
      | some hp =>
        let newUser : User :=
          { Id := newId, Role := "Employee", Name := req.Name
            Email := req.Email, Password := hp
            CreatedAt := now, UpdatedAt := now }
        match insFault with
        | some m => ({ status := 500, body := .err m }, db)
        | none =>
          ({ status := 201, body := .createOk (toUserResponse newUser) },
            db ++ [newUser])

/-- Digit run of `strconv.Atoi`: accumulates decimal digits, failing on
any non-digit character. -/
def atoiNat : List Char → Nat → Option Nat
  | [], acc => some acc
  | c :: cs, acc =>
    if c.isDigit then atoiNat cs (acc * 10 + (c.toNat - 48)) else none

/-- `strconv.Atoi`: an optional sign followed by at least one decimal
digit (machine-width overflow aside, which no claim exercises). -/
def atoi (s : String) : Option Int :=
  match s.data with
  | [] => none
  | '-' :: cs =>
    if cs = [] then none
    else (atoiNat cs 0).map (fun n => -(n : Int))
  | '+' :: cs =>
    if cs = [] then none
    else (atoiNat cs 0).map (fun n => (n : Int))
  | cs => (atoiNat cs 0).map (fun n => (n : Int))

/-- The `Delete` handler (lines 135-167).  GORM's `Delete(&user)`
removes the rows whose primary key equals the fetched row's. -/
def Delete (db : List User) (findFault delFault : Option String)
    (idParam : String) : Response × List User :=
  match atoi idParam with
  | none => ({ status := 400, body := .err "Invalid user ID" }, db)
  | some id =>
    match firstById db findFault id with
    | .found user =>
      match delFault with
      | some m => ({ status := 500, body := .err m }, db)
      | none =>
        ({ status := 200, body := .deleteOk user.Id user.Name user.Email },
          db.filter (fun u => u.Id != user.Id))
    | _ => ({ status := 404, body := .err "User not found" }, db)

/-- The `GetEmployee` handler (lines 169-199).  The `Select` projects a
column set without the password, modelled by blanking that field; the
rows are filtered to role `Employee` and mapped through the sanitized
projection. -/
def GetEmployee (db : List User) (qFault : Option String) : Response :=
  match qFault with
  | some m => { status := 500, body := .err m }
  | none =>
    let users :=
      (db.filter (fun u => u.Role == "Employee")).map
        (fun u => { u with Password := "" })
    let userResponses := users.map toUserResponse
    { status := 200,
      body := .employeesOk userResponses.length userResponses }

/-- A sample admin row, standing for the seeded owner account of
`config/database.go`. -/
def ownerRow : User :=
  { Id := 1, Role := "Admin", Name := "Owner", Email := "owner@go.id",
    Password := "H1", CreatedAt := ⟨2025, 1, 2, 3, 4, 5⟩,
    UpdatedAt := ⟨2025, 1, 2, 3, 4, 5⟩ }

/-- A sample employee row. -/
def aliceRow : User :=
  { Id := 2, Role := "Employee", Name := "A", Email := "a@x.com",
    Password := "H1", CreatedAt := ⟨2025, 1, 2, 3, 4, 5⟩,
    UpdatedAt := ⟨2025, 1, 2, 3, 4, 5⟩ }

/-- A short-password request always fails the binding validation,
whatever the email validator accepts. -/
theorem bindCreateErr_some_of_short (validEmail : String → Bool)
    (req : CreateUserRequest) (h : req.Password.length < 6) :
    ∃ m, bindCreateErr validEmail req = some m := by
  unfold bindCreateErr
  split_ifs with h1 h2 h3 h4 <;> exact ⟨_, rfl⟩

/-- Claim C1: a login whose email matches a stored user and whose
password verifies returns 200 with exactly the stored id, role, name,
email and formatted timestamps; the body is the sanitized `UserResponse`
projection, which has no password field. -/
theorem login_success_sanitized (verify : String → String → Bool)
    (validEmail : String → Bool) (db : List User) (req : LoginRequest)
    (u : User) (hbind : bindLoginErr validEmail req = none)
    (hfind : db.find? (fun v => v.Email == req.Email) = some u)
    (hverify : verify u.Password req.Password = true) :
    Login verify validEmail db none (.ok req) =
      { status := 200,
        body := .loginOk
          { Id := u.Id, Role := u.Role, Name := u.Name, Email := u.Email,
            CreatedAt := formatTimestamp u.CreatedAt,
            UpdatedAt := formatTimestamp u.UpdatedAt } } := by
  simp [Login, shouldBindLogin, hbind, firstWhereEmail, hfind, hverify,
    toUserResponse]

/-- Witness for C1 at a concrete database and request. -/
theorem login_success_sanitized_witness :
    Login (fun _ _ => true) (fun _ => true) [ownerRow] none
      (.ok { Email := "owner@go.id", Password := "123456" }) =
      { status := 200,
        body := .loginOk
          { Id := ownerRow.Id, Role := ownerRow.Role,
            Name := ownerRow.Name, Email := ownerRow.Email,
            CreatedAt := formatTimestamp ownerRow.CreatedAt,
            UpdatedAt := formatTimestamp ownerRow.UpdatedAt } } :=
  login_success_sanitized (fun _ _ => true) (fun _ => true) [ownerRow]
    { Email := "owner@go.id", Password := "123456" } ownerRow
    (by decide) (by decide) rfl

/-- Claim C2: a login with an unknown email and a login with a known
email but non-verifying password produce identical responses (same
status, same body), both being the generic 401 error. -/
theorem login_errors_indistinguishable (verify : String → String → Bool)
    (validEmail : String → Bool) (db : List User)
    (r1 r2 : LoginRequest) (u : User)
    (hb1 : bindLoginErr validEmail r1 = none)
    (hb2 : bindLoginErr validEmail r2 = none)
    (h1 : db.find? (fun v => v.Email == r1.Email) = none)
    (h2 : db.find? (fun v => v.Email == r2.Email) = some u)
    (hv : verify u.Password r2.Password = false) :
    Login verify validEmail db none (.ok r1) =
        Login verify validEmail db none (.ok r2) ∧
      Login verify validEmail db none (.ok r1) =
        { status := 401, body := .err "Email or Password is Wrong" } := by
  constructor <;>
    simp [Login, shouldBindLogin, hb1, hb2, firstWhereEmail, h1, h2, hv]

/-- Witness for C2: unknown email vs. wrong password on a one-row
database. -/
theorem login_errors_indistinguishable_witness :
    Login (fun _ _ => false) (fun _ => true) [ownerRow] none
        (.ok { Email := "ghost@go.id", Password := "whatever" }) =
      Login (fun _ _ => false) (fun _ => true) [ownerRow] none
        (.ok { Email := "owner@go.id", Password := "badpass" }) :=
  (login_errors_indistinguishable (fun _ _ => false) (fun _ => true)
    [ownerRow] { Email := "ghost@go.id", Password := "whatever" }
    { Email := "owner@go.id", Password := "badpass" } ownerRow
    (by decide) (by decide) (by decide) (by decide) rfl).1

/-- Claim C3: creating an account whose email already belongs to a
stored row returns 400 with error message Email already exists, and the
row list is unchanged. -/
theorem createAccount_duplicate_email (hash : String → Option String)
    (validEmail : String → Bool) (db : List User)
    (req : CreateUserRequest) (u : User) (insFault : Option String)
    (newId : Int) (now : DateTimeGo)
    (hbind : bindCreateErr validEmail req = none)
    (hfind : db.find? (fun v => v.Email == req.Email) = some u) :
    CreateAccount hash validEmail db none insFault newId now (.ok req) =
      ({ status := 400, body := .err "Email already exists" }, db) := by
  simp [CreateAccount, shouldBindCreate, hbind, firstWhereEmail, hfind]

/-- Witness for C3 at a concrete database already holding the email. -/
theorem createAccount_duplicate_email_witness :
    CreateAccount (fun _ => some "H2") (fun _ => true) [aliceRow] none
      none 3 ⟨2025, 2, 3, 4, 5, 6⟩
      (.ok { Name := "B", Email := "a@x.com", Password := "secret1" }) =
      ({ status := 400, body := .err "Email already exists" },
        [aliceRow]) :=
  createAccount_duplicate_email (fun _ => some "H2") (fun _ => true)
    [aliceRow] { Name := "B", Email := "a@x.com", Password := "secret1" }
    aliceRow none 3 ⟨2025, 2, 3, 4, 5, 6⟩ (by decide) (by decide)

/-- Claim C4: a create-account request whose password is shorter than 6
characters is rejected with 400 at binding time: the row list is
returned unchanged and the reply is the same whatever the database
contents or fault state, i.e. no query is consulted. -/
theorem createAccount_short_password (hash : String → Option String)
    (validEmail : String → Bool) (req : CreateUserRequest)
    (hshort : req.Password.length < 6) :
    ∀ db preFault insFault newId now,
      (CreateAccount hash validEmail db preFault insFault newId now
          (.ok req)).2 = db ∧
      (CreateAccount hash validEmail db preFault insFault newId now
          (.ok req)).1.status = 400 ∧
      (CreateAccount hash validEmail db preFault insFault newId now
          (.ok req)).1 =
        (CreateAccount hash validEmail [] none none 0 ⟨0, 0, 0, 0, 0, 0⟩
          (.ok req)).1 := by
  intro db preFault insFault newId now
  obtain ⟨m, hm⟩ := bindCreateErr_some_of_short validEmail req hshort
  simp [CreateAccount, shouldBindCreate, hm]

/-- Witness for C4 with a three-character password, a nonempty database
and a faulted pre-check query. -/
theorem createAccount_short_password_witness :
    (CreateAccount (fun _ => some "H2") (fun _ => true) [ownerRow]
        (some "boom") none 3 ⟨2025, 2, 3, 4, 5, 6⟩
        (.ok { Name := "B", Email := "b@x.com", Password := "abc" })).2 =
      [ownerRow] :=
  (createAccount_short_password (fun _ => some "H2") (fun _ => true)
    { Name := "B", Email := "b@x.com", Password := "abc" } (by decide)
    [ownerRow] (some "boom") none 3 ⟨2025, 2, 3, 4, 5, 6⟩).1

/-- Claim C5: whenever `CreateAccount` replies 201, the row it appended
and the projection it returned carry role Employee; no input yields an
Admin account. -/
theorem createAccount_success_is_employee (hash : String → Option String)
    (validEmail : String → Bool) (db : List User)
    (preFault insFault : Option String) (newId : Int) (now : DateTimeGo)
    (raw : Except String CreateUserRequest)
    (h : (CreateAccount hash validEmail db preFault insFault newId now
        raw).1.status = 201) :
    ∃ u : User,
      (CreateAccount hash validEmail db preFault insFault newId now
          raw).2 = db ++ [u] ∧
      u.Role = "Employee" ∧
      (CreateAccount hash validEmail db preFault insFault newId now
          raw).1.body = .createOk (toUserResponse u) ∧
      (toUserResponse u).Role = "Employee" := by
  unfold CreateAccount at h ⊢
  rcases hb : shouldBindCreate validEmail raw with m | req <;>
    simp only [hb] at h ⊢
  · simp at h
  · rcases hq : firstWhereEmail db preFault req.Email with u | _ | m <;>
      simp only [hq] at h ⊢
    · simp at h
    · rcases hh : hash req.Password with _ | hp <;> simp only [hh] at h ⊢
      · simp at h
      · rcases insFault with _ | m
        · exact ⟨_, rfl, rfl, rfl, rfl⟩
        · simp at h
    · rcases hh : hash req.Password with _ | hp <;> simp only [hh] at h ⊢
      · simp at h
      · rcases insFault with _ | m
        · exact ⟨_, rfl, rfl, rfl, rfl⟩
        · simp at h

/-- Witness for C5 at a concrete successful creation. -/
theorem createAccount_success_is_employee_witness :
    ∃ u : User,
      (CreateAccount (fun _ => some "H2") (fun _ => true) [] none none 1
          ⟨2025, 2, 3, 4, 5, 6⟩
          (.ok { Name := "A", Email := "a@x.com",
                 Password := "secret1" })).2 = [] ++ [u] ∧
      u.Role = "Employee" ∧
      (CreateAccount (fun _ => some "H2") (fun _ => true) [] none none 1
          ⟨2025, 2, 3, 4, 5, 6⟩
          (.ok { Name := "A", Email := "a@x.com",
                 Password := "secret1" })).1.body =
        .createOk (toUserResponse u) ∧
      (toUserResponse u).Role = "Employee" :=
  createAccount_success_is_employee (fun _ => some "H2") (fun _ => true)
    [] none none 1 ⟨2025, 2, 3, 4, 5, 6⟩
    (.ok { Name := "A", Email := "a@x.com", Password := "secret1" })
    (by decide)

/-- Claim C6: a delete whose path id parses but matches no stored row
replies 404 with error User not found and leaves the row list exactly as
it was. -/
theorem delete_missing_user (db : List User) (delFault : Option String)
    (idParam : String) (id : Int) (hid : atoi idParam = some id)
    (hmiss : db.find? (fun u => u.Id == id) = none) :
    Delete db none delFault idParam =
      ({ status := 404, body := .err "User not found" }, db) := by
  simp [Delete, hid, firstById, hmiss]

/-- Witness for C6: deleting id 7 from a database holding only id 1. -/
theorem delete_missing_user_witness :
    Delete [ownerRow] none (some "boom") "7" =
      ({ status := 404, body := .err "User not found" }, [ownerRow]) :=
  delete_missing_user [ownerRow] (some "boom") "7" 7 (by decide)
    (by decide)

/-- Claim C7: every entry of the employees array `GetEmployee` returns
has role Employee; an Admin row can never appear. -/
theorem getEmployee_only_employees (db : List User)
    (qFault : Option String) (n : Nat) (es : List UserResponse)
    (h : GetEmployee db qFault =
      { status := 200, body := .employeesOk n es }) :
    ∀ r ∈ es, r.Role = "Employee" := by
  rcases qFault with _ | m
  · simp only [GetEmployee, Response.mk.injEq, RespBody.employeesOk.injEq,
      true_and] at h
    obtain ⟨-, hes⟩ := h
    subst hes
    intro r hr
    simp only [List.mem_map, List.mem_filter] at hr
    obtain ⟨v, ⟨u, ⟨-, hu⟩, rfl⟩, rfl⟩ := hr
    simpa [toUserResponse] using hu
  · simp [GetEmployee] at h

/-- Witness for C7: the Admin row is filtered out, the Employee row
keeps its role. -/
theorem getEmployee_only_employees_witness :
    (toUserResponse { aliceRow with Password := "" }).Role =
      "Employee" :=
  getEmployee_only_employees [ownerRow, aliceRow] none 1
    [toUserResponse { aliceRow with Password := "" }] (by decide)
    (toUserResponse { aliceRow with Password := "" }) (by simp)

/-- Claim C8: when no stored row has role Employee and the query
succeeds, `GetEmployee` replies 200 with count 0 and an empty employees
list. -/
theorem getEmployee_no_rows (db : List User)
    (hnone : db.filter (fun u => u.Role == "Employee") = []) :
    GetEmployee db none = { status := 200, body := .employeesOk 0 [] } := by
  simp [GetEmployee, hnone]

/-- Witness for C8: a database holding only the seeded Admin row. -/
theorem getEmployee_no_rows_witness :
    GetEmployee [ownerRow] none =
      { status := 200, body := .employeesOk 0 [] } :=
  getEmployee_no_rows [ownerRow] (by decide)

/-- Counterexample to C9: a driver failure in the Login email lookup is
reported as 401 with the generic credentials error, not as 500, so an
unexpected database error is not always surfaced as 500. -/
theorem login_db_error_not_500 :
    Login (fun _ _ => false) (fun _ => true) []
        (some "connection refused")
        (.ok { Email := "a@x.com", Password := "secret1" }) =
      { status := 401, body := .err "Email or Password is Wrong" } ∧
    (Login (fun _ _ => false) (fun _ => true) []
        (some "connection refused")
        (.ok { Email := "a@x.com", Password := "secret1" })).status ≠
      500 := by
  constructor
  · rfl
  · decide

/-- Claim C9 as amended: 400 for malformed or invalid input, 401 for
authentication failure, 404 for a missing resource hold as stated, but a
database error is surfaced as 500 only by the GetEmployee query, the
CreateAccount insert, and the Delete delete step; a database error in
Login's lookup is reported as 401 with the generic credentials message,
one in Delete's lookup as 404 User not found, and one in CreateAccount's
duplicate pre-check is not reported at all — the handler proceeds and
can reply 201. -/
theorem db_error_status_mapping (msg : String)
    (verify : String → String → Bool) (validEmail : String → Bool)
    (hash : String → Option String) (db : List User)
    (lreq : LoginRequest) (creq : CreateUserRequest) (newId : Int)
    (now : DateTimeGo) (idParam : String) (id : Int) (u : User)
    (hp : String) (hbl : bindLoginErr validEmail lreq = none)
    (hbc : bindCreateErr validEmail creq = none)
    (hmiss : db.find? (fun v => v.Email == creq.Email) = none)
    (hhash : hash creq.Password = some hp)
    (hid : atoi idParam = some id)
    (hfound : db.find? (fun v => v.Id == id) = some u) :
    Login verify validEmail db (some msg) (.ok lreq) =
      { status := 401, body := .err "Email or Password is Wrong" } ∧
    (Delete db (some msg) none idParam).1 =
      { status := 404, body := .err "User not found" } ∧
    (Delete db none (some msg) idParam).1 =
      { status := 500, body := .err msg } ∧
    (CreateAccount hash validEmail db none (some msg) newId now
        (.ok creq)).1 = { status := 500, body := .err msg } ∧
    (CreateAccount hash validEmail db (some msg) none newId now
        (.ok creq)).1.status = 201 ∧
    GetEmployee db (some msg) = { status := 500, body := .err msg } := by
  refine ⟨?_, ?_, ?_, ?_, ?_, ?_⟩ <;>
    simp [Login, Delete, CreateAccount, GetEmployee, shouldBindLogin,
      shouldBindCreate, firstWhereEmail, firstById, hbl, hbc, hmiss,
      hhash, hid, hfound]

/-- Witness for the amended C9 at a concrete database and requests,
projected to the Login conjunct. -/
theorem db_error_status_mapping_witness :
    Login (fun _ _ => false) (fun _ => true) [aliceRow] (some "boom")
        (.ok { Email := "a@x.com", Password := "secret1" }) =
      { status := 401, body := .err "Email or Password is Wrong" } :=
  (db_error_status_mapping "boom" (fun _ _ => false) (fun _ => true)
    (fun _ => some "H2") [aliceRow]
    { Email := "a@x.com", Password := "secret1" }
    { Name := "B", Email := "b@x.com", Password := "secret1" } 3
    ⟨2025, 2, 3, 4, 5, 6⟩ "2" 2 aliceRow "H2" (by decide) (by decide)
    (by decide) rfl (by decide) (by decide)).1

/-- Claim C10: when the duplicate-email pre-check query fails for any
reason other than finding a row — here a driver failure — CreateAccount
does not report that failure: it hashes the password and attempts the
insert, even if a row with that email is already stored. -/
theorem createAccount_precheck_failure_proceeds
    (hash : String → Option String) (validEmail : String → Bool)
    (db : List User) (msg : String) (newId : Int) (now : DateTimeGo)
    (creq : CreateUserRequest) (hp : String)
    (hbc : bindCreateErr validEmail creq = none)
    (hhash : hash creq.Password = some hp) :
    CreateAccount hash validEmail db (some msg) none newId now
        (.ok creq) =
      ({ status := 201,
         body := .createOk
           { Id := newId, Role := "Employee", Name := creq.Name,
             Email := creq.Email, CreatedAt := formatTimestamp now,
             UpdatedAt := formatTimestamp now } },
        db ++
          [{ Id := newId, Role := "Employee", Name := creq.Name,
             Email := creq.Email, Password := hp, CreatedAt := now,
             UpdatedAt := now }]) := by
  simp [CreateAccount, shouldBindCreate, hbc, firstWhereEmail, hhash,
    toUserResponse]

/-- Witness for C10: the database already holds the email, yet the
faulted pre-check lets a duplicate row be inserted. -/
theorem createAccount_precheck_failure_proceeds_witness :
    CreateAccount (fun _ => some "H2") (fun _ => true) [aliceRow]
        (some "boom") none 3 ⟨2025, 2, 3, 4, 5, 6⟩
        (.ok { Name := "B", Email := "a@x.com",
               Password := "secret1" }) =
      ({ status := 201,
         body := .createOk
           { Id := 3, Role := "Employee", Name := "B",
             Email := "a@x.com",
             CreatedAt := formatTimestamp ⟨2025, 2, 3, 4, 5, 6⟩,
             UpdatedAt := formatTimestamp ⟨2025, 2, 3, 4, 5, 6⟩ } },
        [aliceRow] ++
          [{ Id := 3, Role := "Employee", Name := "B",
             Email := "a@x.com", Password := "H2",
             CreatedAt := ⟨2025, 2, 3, 4, 5, 6⟩,
             UpdatedAt := ⟨2025, 2, 3, 4, 5, 6⟩ }]) :=
  createAccount_precheck_failure_proceeds (fun _ => some "H2")
    (fun _ => true) [aliceRow] "boom" 3 ⟨2025, 2, 3, 4, 5, 6⟩
    { Name := "B", Email := "a@x.com", Password := "secret1" } "H2"
    (by decide) rfl
